import Mathlib

/-!
Verification of the Trello-to-Discord webhook bridge (src/bot.py).

The development shallowly embeds the core pipeline of the program:
signature verification (verify_webhook_signature), the webhook endpoint
orchestration (handle_webhook), event routing (process_trello_event,
send_discord_message) and message formatting (create_embed), together
with the pieces of the Python runtime they rely on: dict access with
defaults, str formatting, comment truncation by code points, HMAC-SHA1
hex digests, and datetime.fromisoformat.

Python values that may appear in a decoded JSON payload are modelled by
the inductive type Json; Python exceptions are modelled by the Except
monad with an explicit error enumeration PyErr.
-/

set_option maxRecDepth 100000

/-- A decoded JSON value, as produced by request.json in aiohttp:
strings, integers, booleans, null, arrays and string-keyed objects.
(Float payload values do not occur in any property considered here and
are omitted from the model.) -/
inductive Json where
  | str (s : String)
  | num (n : Int)
  | bool (b : Bool)
  | null
  | arr (elems : List Json)
  | obj (fields : List (String × Json))

/-- The Python exceptions that the embedded code can raise:
AttributeError (method access on a value lacking it, e.g. .get on a
non-dict), TypeError (e.g. len() of an int), ValueError (raised by
datetime.fromisoformat on an unparsable string), KeyError (indexing a
dict with a missing key). -/
inductive PyErr where
  | attributeError
  | typeError
  | valueError
  | keyError
deriving DecidableEq, Repr

/-- First binding of a key in an object's field list; Python dict keys
are unique, so first-match lookup agrees with dict lookup. -/
def jsonLookup : List (String × Json) → String → Option Json
  | [], _ => none
  | (k, v) :: rest, key => if k = key then some v else jsonLookup rest key

/-- Python d.get(k): returns the value when d is a dict (None when the
key is absent, modelled as the Option), raises AttributeError when the
receiver is not a dict. -/
def pyGet : Json → String → Except PyErr (Option Json)
  | Json.obj fs, k => Except.ok (jsonLookup fs k)
  | _, _ => Except.error PyErr.attributeError

/-- Python d.get(k, default). -/
def pyGetD (j : Json) (k : String) (d : Json) : Except PyErr Json :=
  (pyGet j k).map (fun o => o.getD d)

/-- Python d[k] on the values the program can reach it with: dict
indexing (KeyError when absent); indexing a string, list, int, bool or
None with a string key raises TypeError. -/
def pyIndex : Json → String → Except PyErr Json
  | Json.obj fs, k =>
      match jsonLookup fs k with
      | some v => Except.ok v
      | none => Except.error PyErr.keyError
  | _, _ => Except.error PyErr.typeError

/-- Does the character list n occur as a contiguous run inside h
(Python substring containment)? -/
def hasSubList (n : List Char) : List Char → Bool
  | [] => n.isEmpty
  | c :: t => n.isPrefixOf (c :: t) || hasSubList n t

/-- Python (k in j): key membership for a dict, substring containment
for a string, element membership for a list; TypeError for int, bool
and None, which are not containers. -/
def pyContains (j : Json) (k : String) : Except PyErr Bool :=
  match j with
  | Json.obj fs => Except.ok ((jsonLookup fs k).isSome)
  | Json.str s => Except.ok (hasSubList k.data s.data)
  | Json.arr xs =>
      Except.ok (xs.any (fun x => match x with
        | Json.str s => s = k
        | _ => false))
  | _ => Except.error PyErr.typeError

mutual

/-- Python repr of a decoded JSON value (string escaping inside nested
reprs is not modelled: payload strings in every property considered
here contain no quotes or control characters). -/
def pyRepr : Json → String
  | Json.str s => "'" ++ s ++ "'"
  | Json.num n => toString n
  | Json.bool true => "True"
  | Json.bool false => "False"
  | Json.null => "None"
  | Json.arr xs => "[" ++ pyReprElems xs ++ "]"
  | Json.obj fs => "\x7b" ++ pyReprFields fs ++ "\x7d"

/-- Comma-separated reprs of list elements. -/
def pyReprElems : List Json → String
  | [] => ""
  | [x] => pyRepr x
  | x :: y :: rest => pyRepr x ++ ", " ++ pyReprElems (y :: rest)

/-- Comma-separated reprs of dict entries. -/
def pyReprFields : List (String × Json) → String
  | [] => ""
  | [(k, v)] => "'" ++ k ++ "': " ++ pyRepr v
  | (k, v) :: e :: rest => "'" ++ k ++ "': " ++ pyRepr v ++ ", " ++ pyReprFields (e :: rest)

end

/-- Python str() of a decoded JSON value, as applied by f-string
interpolation and by discord.Embed.add_field to its value argument. -/
def pyStr : Json → String
  | Json.str s => s
  | j => pyRepr j

/-- Python str() of an optional value, where absence is Python None
(str(None) is the four-character string None). -/
def pyStrOpt : Option Json → String
  | none => "None"
  | some j => pyStr j

/-- Length of a Python str: its number of code points. -/
def pyLen (s : String) : Nat := s.data.length

/-- Python s[:n]: the first n code points. -/
def pyTake (s : String) (n : Nat) : String := String.mk (s.data.take n)

/-- Replacement of every non-overlapping occurrence of old by new,
scanning left to right; the fuel, started at the list length, bounds
the recursion and never runs out on a non-empty pattern. -/
def replaceFuel : Nat → List Char → List Char → List Char → List Char
  | 0, _, _, cs => cs
  | fuel + 1, old, new, cs =>
      match cs with
      | [] => []
      | c :: rest =>
          if old ≠ [] && old.isPrefixOf cs then
            new ++ replaceFuel fuel old new (cs.drop old.length)
          else c :: replaceFuel fuel old new rest

/-- Python s.replace(old, new) for a non-empty pattern: every
non-overlapping occurrence, scanned left to right, is replaced. -/
def pyReplace (s old new : String) : String :=
  String.mk (replaceFuel s.data.length old.data new.data s.data)

/-!
A model of datetime.fromisoformat (CPython, pre-3.11 grammar, which
covers every string the program feeds it): YYYY-MM-DD, optionally
followed by a one-character separator and HH[:MM[:SS[.fff[fff]]]]
with an optional +HH:MM[:SS[.ffffff]] or -HH:MM[:SS[.ffffff]] offset.
Failure is modelled as none, standing for the ValueError the real
function raises.
-/

/-- An aware or naive datetime as returned by datetime.fromisoformat;
the offset, when present, is in microseconds east of UTC. -/
structure PyDateTime where
  year : Nat
  month : Nat
  day : Nat
  hour : Nat
  minute : Nat
  second : Nat
  microsecond : Nat
  offsetMicros : Option Int
deriving DecidableEq, Repr

/-- Numeric value of a decimal digit character, none otherwise. -/
def digitVal (c : Char) : Option Nat :=
  if c.isDigit then some (c.toNat - 48) else none

/-- Parse exactly two decimal digits. -/
def parse2d : List Char → Option (Nat × List Char)
  | c1 :: c2 :: rest =>
      match digitVal c1, digitVal c2 with
      | some a, some b => some (a * 10 + b, rest)
      | _, _ => none
  | _ => none

/-- Parse exactly four decimal digits. -/
def parse4d : List Char → Option (Nat × List Char)
  | c1 :: c2 :: c3 :: c4 :: rest =>
      match digitVal c1, digitVal c2, digitVal c3, digitVal c4 with
      | some a, some b, some c, some d => some (((a * 10 + b) * 10 + c) * 10 + d, rest)
      | _, _, _, _ => none
  | _ => none

/-- Value of a list of decimal digit characters, none when any
character is not a digit. -/
def digitsVal : List Char → Option Nat
  | [] => some 0
  | c :: rest =>
      match digitVal c, digitsVal rest with
      | some d, some r => some (d * 10 ^ rest.length + r)
      | _, _ => none

/-- Is the year a Gregorian leap year? -/
def isLeapYear (y : Nat) : Bool :=
  (y % 4 = 0 && y % 100 ≠ 0) || y % 400 = 0

/-- Number of days in the given month of the given year. -/
def daysInMonth (y m : Nat) : Nat :=
  if m = 2 then (if isLeapYear y then 29 else 28)
  else if m = 4 || m = 6 || m = 9 || m = 11 then 30
  else 31

/-- Parse the HH[:MM[:SS[.fff[fff]]]] portion of an isoformat time
string, requiring the whole input to be consumed; returns hour, minute,
second and microsecond. Range validation happens at the constructor
call in CPython and in fromisoformat below. -/
def parseTimeComps (cs : List Char) : Option (Nat × Nat × Nat × Nat) :=
  match parse2d cs with
  | none => none
  | some (h, r1) =>
    match r1 with
    | [] => some (h, 0, 0, 0)
    | ':' :: r2 =>
      match parse2d r2 with
      | none => none
      | some (m, r3) =>
        match r3 with
        | [] => some (h, m, 0, 0)
        | ':' :: r4 =>
          match parse2d r4 with
          | none => none
          | some (s, r5) =>
            match r5 with
            | [] => some (h, m, s, 0)
            | '.' :: r6 =>
              if r6.length = 3 then
                (digitsVal r6).map (fun f => (h, m, s, f * 1000))
              else if r6.length = 6 then
                (digitsVal r6).map (fun f => (h, m, s, f))
              else none
            | _ => none
        | _ => none
    | _ => none

/-- Parse the time-of-day part of an isoformat string, including an
optional UTC offset introduced by the first + or - sign (the minus
sign is searched for first, as in CPython). -/
def parseIsoTime (cs : List Char) : Option (Nat × Nat × Nat × Nat × Option Int) :=
  let tzIdx : Option Nat :=
    match cs.findIdx? (fun c => c = '-') with
    | some i => some i
    | none => cs.findIdx? (fun c => c = '+')
  match tzIdx with
  | none =>
      (parseTimeComps cs).bind (fun (h, m, s, f) =>
        if h ≤ 23 && m ≤ 59 && s ≤ 59 then some (h, m, s, f, none) else none)
  | some i =>
      let timePart := cs.take i
      let sign : Int := if cs.getD i ' ' = '-' then -1 else 1
      let tzPart := cs.drop (i + 1)
      if tzPart.length = 5 || tzPart.length = 8 || tzPart.length = 15 then
        match parseTimeComps timePart, parseTimeComps tzPart with
        | some (h, m, s, f), some (th, tm, ts, tf) =>
            if h ≤ 23 && m ≤ 59 && s ≤ 59 then
              let mag : Nat := ((th * 60 + tm) * 60 + ts) * 1000000 + tf
              if mag < 24 * 3600 * 1000000 then
                some (h, m, s, f, some (sign * (mag : Int)))
              else none
            else none
        | _, _ => none
      else none

/-- Modelled from the Python standard library: datetime.fromisoformat.
Returns none exactly where the real function raises ValueError. The
date part must be the first ten characters YYYY-MM-DD; character ten,
when present, is an arbitrary separator and the remainder from index
eleven on, when non-empty, is the time-of-day with optional offset. -/
def fromisoformat (s : String) : Option PyDateTime :=
  let cs := s.data
  if cs.length < 10 then none
  else
    match parse4d (cs.take 10) with
    | none => none
    | some (y, r1) =>
      match r1 with
      | '-' :: m1 :: m2 :: '-' :: d1 :: d2 :: [] =>
        (match digitVal m1, digitVal m2, digitVal d1, digitVal d2 with
         | some a, some b, some c, some d =>
           let mo := a * 10 + b
           let da := c * 10 + d
           if 1 ≤ y && 1 ≤ mo && mo ≤ 12 && 1 ≤ da && da ≤ daysInMonth y mo then
             let rest := cs.drop 11
             if rest.isEmpty then
               some ⟨y, mo, da, 0, 0, 0, 0, none⟩
             else
               (parseIsoTime rest).map (fun (h, mi, se, f, off) =>
                 ⟨y, mo, da, h, mi, se, f, off⟩)
           else none
         | _, _, _, _ => none)
      | _ => none

/-!
HMAC-SHA1 over byte sequences, as used by the hmac and hashlib modules
in verify_webhook_signature: hmac.new(key, msg, hashlib.sha1).hexdigest.
Bytes are Nats below 256; words are Nats below 2 to the 32.
-/

/-- Truncate to a 32-bit word. -/
def w32 (n : Nat) : Nat := n % 4294967296

/-- Rotate a 32-bit word left by s places. -/
def rotl32 (x s : Nat) : Nat := w32 ((x <<< s) ||| (x >>> (32 - s)))

/-- Big-endian bytes of a 32-bit word. -/
def wordBytes (x : Nat) : List Nat :=
  [(x >>> 24) % 256, (x >>> 16) % 256, (x >>> 8) % 256, x % 256]

/-- Big-endian bytes of a 64-bit length field. -/
def len64Bytes (x : Nat) : List Nat :=
  [(x >>> 56) % 256, (x >>> 48) % 256, (x >>> 40) % 256, (x >>> 32) % 256,
   (x >>> 24) % 256, (x >>> 16) % 256, (x >>> 8) % 256, x % 256]

/-- Big-endian 32-bit words of a byte list whose length is a multiple
of four. -/
def bytesToWords : List Nat → List Nat
  | b0 :: b1 :: b2 :: b3 :: rest =>
      (((b0 * 256 + b1) * 256 + b2) * 256 + b3) :: bytesToWords rest
  | _ => []

/-- SHA-1 message padding: append the 0x80 byte, zeros up to 56 mod 64,
then the original bit length as a big-endian 64-bit field. -/
def sha1Pad (msg : List Nat) : List Nat :=
  let l := msg.length
  msg ++ 128 :: List.replicate ((119 - l % 64) % 64) 0 ++ len64Bytes (8 * l)

/-- Split a byte list into 64-byte blocks; the fuel bounds the number
of blocks and never runs out when it starts at the list length. -/
def chunks64Aux : Nat → List Nat → List (List Nat)
  | 0, _ => []
  | _, [] => []
  | fuel + 1, b :: rest => (b :: rest).take 64 :: chunks64Aux fuel ((b :: rest).drop 64)

/-- Split a byte list into 64-byte blocks. -/
def chunks64 (l : List Nat) : List (List Nat) := chunks64Aux l.length l

/-- Message-schedule extension: given the schedule so far in reverse
order, prepend the next n words w(t) = rotl1 of the xor of w(t-3),
w(t-8), w(t-14) and w(t-16). -/
def sha1Extend : Nat → List Nat → List Nat
  | 0, acc => acc
  | n + 1, acc =>
      sha1Extend n
        (rotl32 ((acc.getD 2 0) ^^^ (acc.getD 7 0) ^^^ (acc.getD 13 0) ^^^ (acc.getD 15 0)) 1
          :: acc)

/-- The 80-word message schedule of one block given as 16 words. -/
def sha1Schedule (ws : List Nat) : List Nat :=
  (sha1Extend 64 ws.reverse).reverse

/-- One round of the SHA-1 compression function, at round index t with
schedule word wt. -/
def sha1Round (st : Nat × Nat × Nat × Nat × Nat) (t wt : Nat) :
    Nat × Nat × Nat × Nat × Nat :=
  let (a, b, c, d, e) := st
  let f :=
    if t < 20 then (b &&& c) ||| ((b ^^^ 4294967295) &&& d)
    else if t < 40 then b ^^^ c ^^^ d
    else if t < 60 then (b &&& c) ||| (b &&& d) ||| (c &&& d)
    else b ^^^ c ^^^ d
  let k :=
    if t < 20 then 0x5a827999
    else if t < 40 then 0x6ed9eba1
    else if t < 60 then 0x8f1bbcdc
    else 0xca62c1d6
  (w32 (rotl32 a 5 + f + e + k + wt), a, rotl32 b 30, c, d)

/-- Process one 64-byte block, updating the five-word chaining state. -/
def sha1Block (h : Nat × Nat × Nat × Nat × Nat) (block : List Nat) :
    Nat × Nat × Nat × Nat × Nat :=
  let ws := sha1Schedule (bytesToWords block)
  let (a, b, c, d, e) :=
    (List.zip (List.range 80) ws).foldl (fun st p => sha1Round st p.1 p.2) h
  let (h0, h1, h2, h3, h4) := h
  (w32 (h0 + a), w32 (h1 + b), w32 (h2 + c), w32 (h3 + d), w32 (h4 + e))

/-- The 20 digest bytes of a final chaining state. -/
def sha1StateBytes (st : Nat × Nat × Nat × Nat × Nat) : List Nat :=
  let (h0, h1, h2, h3, h4) := st
  wordBytes h0 ++ wordBytes h1 ++ wordBytes h2 ++ wordBytes h3 ++ wordBytes h4

/-- SHA-1 digest (20 bytes) of a byte list. -/
def sha1 (msg : List Nat) : List Nat :=
  sha1StateBytes
    ((chunks64 (sha1Pad msg)).foldl sha1Block
      (0x67452301, 0xefcdab89, 0x98badcfe, 0x10325476, 0xc3d2e1f0))

/-- HMAC-SHA1 (RFC 2104): keys longer than the 64-byte block are first
hashed, the key is zero-padded to 64 bytes, and the digest is
sha1(key xor opad, sha1(key xor ipad, msg)). -/
def hmacSha1 (key msg : List Nat) : List Nat :=
  let k0 := if 64 < key.length then sha1 key else key
  let k := k0 ++ List.replicate (64 - k0.length) 0
  sha1 ((k.map (fun b => b ^^^ 0x5c)) ++ sha1 ((k.map (fun b => b ^^^ 0x36)) ++ msg))

/-- Lowercase hexadecimal digit of a value below 16. -/
def hexChar (n : Nat) : Char :=
  if n < 10 then Char.ofNat (48 + n) else Char.ofNat (87 + n)

/-- Lowercase hexadecimal characters of a byte list. -/
def hexChars : List Nat → List Char
  | [] => []
  | b :: rest => hexChar (b / 16) :: hexChar (b % 16) :: hexChars rest

/-- Lowercase hex encoding of a byte list, as hexdigest returns it. -/
def bytesToHex (l : List Nat) : String := String.mk (hexChars l)

/-- UTF-8 bytes of one code point. -/
def utf8Bytes (c : Char) : List Nat :=
  let n := c.toNat
  if n < 128 then [n]
  else if n < 2048 then [192 + n / 64, 128 + n % 64]
  else if n < 65536 then [224 + n / 4096, 128 + (n / 64) % 64, 128 + n % 64]
  else [240 + n / 262144, 128 + (n / 4096) % 64, 128 + (n / 64) % 64, 128 + n % 64]

/-- UTF-8 bytes of a Python str, as str.encode produces them. -/
def strBytes (s : String) : List Nat :=
  s.data.foldr (fun c acc => utf8Bytes c ++ acc) []

/-- The hex HMAC-SHA1 tag computed by verify_webhook_signature. -/
def hmacSha1Hex (key msg : List Nat) : String := bytesToHex (hmacSha1 key msg)

/-!
The embedding of the program (src/bot.py): the discord.Embed value
built by create_embed, the webhook handler configuration read from the
environment, the inbound request, and the four functions of
TrelloWebhookHandler that form the core pipeline.
-/

/-- One field of a discord.Embed, as appended by add_field; discord.py
applies str() to the name and value arguments. -/
structure EmbedField where
  name : String
  value : String
  inline : Bool
deriving DecidableEq, Repr

/-- A discord.Embed as constructed by create_embed: title, description,
color and timestamp from the constructor call, then the ordered fields
appended by add_field. -/
structure Embed where
  title : String
  description : String
  color : Nat
  timestamp : PyDateTime
  fields : List EmbedField
deriving DecidableEq, Repr

/-- The environment-derived state the webhook pipeline reads:
TRELLO_WEBHOOK_SECRET (none when the variable is unset), whether
bot.get_channel finds the configured channel, and whether channel.send
raises when called (the delivery outcome). -/
structure Config where
  secret : Option String
  channelExists : Bool
  sendFails : Bool

/-- An inbound POST request on the /webhook route: the raw body bytes,
the optional X-Trello-Webhook header, and the outcome of request.json
on the body (none when the body is not parseable JSON, in which case
the real call raises). -/
structure Request where
  body : List Nat
  signatureHeader : Option String
  jsonResult : Option Json

/-- An aiohttp web.Response: status and body text. -/
structure Response where
  status : Nat
  text : String
deriving DecidableEq, Repr

/-- Observable effects of handling one request, in order: the JSON
decode of the body, a call into create_embed, and a channel.send call
carrying the built embed. -/
inductive Ev where
  | decodeJson
  | formatCall
  | sendCall (e : Embed)
deriving DecidableEq, Repr

/-- Item access with 'Unknown' default followed by f-string or str()
conversion, the idiom card.get(name, 'Unknown') of create_embed. -/
def getNameD (j : Json) (k : String) : Except PyErr String :=
  (pyGetD j k (Json.str "Unknown")).map pyStr

/-- The timestamp argument of every Embed constructor call in
create_embed: datetime.fromisoformat(date.replace('Z', '+00:00')).
Python str.replace substitutes every occurrence; a non-string date
value has no replace method and raises AttributeError; an unparsable
string raises ValueError. -/
def parseActionDate (dateJ : Json) : Except PyErr PyDateTime :=
  match dateJ with
  | Json.str d =>
      match fromisoformat (pyReplace d "Z" "+00:00") with
      | some t => Except.ok t
      | none => Except.error PyErr.valueError
  | _ => Except.error PyErr.attributeError

/-- Exception-propagating sequencing: run the continuation on a normal
value, let an exception fly past it. -/
def pbind {α β : Type} (x : Except PyErr α) (f : α → Except PyErr β) : Except PyErr β :=
  match x with
  | Except.error e => Except.error e
  | Except.ok a => f a

/-- The conditional expression of src/bot.py line 161: the comment
text, cut to its first 1000 code points with a three-character ellipsis
appended when longer than 1000 code points. -/
def truncateComment (text : String) : String :=
  if 1000 < pyLen text then pyTake text 1000 ++ "..." else text

/-- TrelloWebhookHandler.create_embed (src/bot.py lines 100-173),
transcribed branch by branch in the evaluation order of the Python
source; Except.error models an exception escaping the method. -/
def create_embed (action : Json) : Except PyErr Embed :=
  pbind (pyGet action "type") fun action_type =>
  pbind (pyGetD action "memberCreator" (Json.obj [])) fun member =>
  pbind (pyGetD action "date" (Json.str "")) fun dateJ =>
  match action_type with
  | some (Json.str "createCard") =>
      pbind (pyGetD action "data" (Json.obj [])) fun data =>
      pbind (pyGetD data "card" (Json.obj [])) fun card =>
      pbind (pyGetD data "list" (Json.obj [])) fun list_info =>
      pbind (getNameD card "name") fun cardName =>
      pbind (parseActionDate dateJ) fun ts =>
      pbind (getNameD list_info "name") fun listName =>
      pbind (getNameD member "fullName") fun creator =>
      Except.ok { title := "🆕 New Card Created",
                  description := "**" ++ cardName ++ "**",
                  color := 0x00ff00, timestamp := ts,
                  fields := [⟨"List", listName, true⟩, ⟨"Creator", creator, true⟩] }
  | some (Json.str "updateCard") =>
      pbind (pyGetD action "data" (Json.obj [])) fun data =>
      pbind (pyGetD data "card" (Json.obj [])) fun card =>
      pbind (pyGetD data "old" (Json.obj [])) fun old_data =>
      pbind (getNameD card "name") fun cardName =>
      pbind (parseActionDate dateJ) fun ts =>
      pbind (pyContains old_data "name") fun hasName =>
      pbind (if hasName then
               pbind (pyIndex old_data "name") fun oldName =>
               pbind (pyGet card "name") fun newName =>
               Except.ok [EmbedField.mk "Name Changed"
                 ("From: " ++ pyStr oldName ++ "\nTo: " ++ pyStrOpt newName) false]
             else Except.ok []) fun nameFields =>
      pbind (pyContains old_data "desc") fun hasDesc =>
      pbind (pyContains old_data "pos") fun hasPos =>
      pbind (getNameD member "fullName") fun updatedBy =>
      Except.ok { title := "📝 Card Updated",
                  description := "**" ++ cardName ++ "**",
                  color := 0xffaa00, timestamp := ts,
                  fields := nameFields
                    ++ (if hasDesc then [⟨"Description Updated", "Description was modified", false⟩] else [])
                    ++ (if hasPos then [⟨"Position Changed", "Card was moved", false⟩] else [])
                    ++ [⟨"Updated by", updatedBy, true⟩] }
  | some (Json.str "deleteCard") =>
      pbind (pyGetD action "data" (Json.obj [])) fun data =>
      pbind (pyGetD data "card" (Json.obj [])) fun card =>
      pbind (getNameD card "name") fun cardName =>
      pbind (parseActionDate dateJ) fun ts =>
      pbind (getNameD member "fullName") fun deletedBy =>
      Except.ok { title := "🗑️ Card Deleted",
                  description := "**" ++ cardName ++ "**",
                  color := 0xff0000, timestamp := ts,
                  fields := [⟨"Deleted by", deletedBy, true⟩] }
  | some (Json.str "commentCard") =>
      pbind (pyGetD action "data" (Json.obj [])) fun data =>
      pbind (pyGetD data "card" (Json.obj [])) fun card =>
      pbind (pyGetD data "text" (Json.str "")) fun textJ =>
      pbind (getNameD card "name") fun cardName =>
      pbind (parseActionDate dateJ) fun ts =>
      pbind (match textJ with
             | Json.str s => Except.ok s
             | _ => Except.error PyErr.typeError) fun text =>
      pbind (getNameD member "fullName") fun commentBy =>
      Except.ok { title := "💬 New Comment",
                  description := "**" ++ cardName ++ "**",
                  color := 0x0099ff, timestamp := ts,
                  fields := [⟨"Comment", truncateComment text, false⟩,
                             ⟨"Comment by", commentBy, true⟩] }
  | other =>
      pbind (parseActionDate dateJ) fun ts =>
      pbind (getNameD member "fullName") fun user =>
      Except.ok { title := "🔄 Trello Update",
                  description := "Action: " ++ pyStrOpt other,
                  color := 0x666666, timestamp := ts,
                  fields := [⟨"User", user, true⟩] }

/-- TrelloWebhookHandler.send_discord_message (lines 88-98): looks up
the channel (logging and returning when it is missing), builds the
embed and sends it; every exception, including one escaping
create_embed, is caught and logged, so the function always returns
normally. The returned list is the trace of calls it performs. -/
def send_discord_message (cfg : Config) (action : Json) : List Ev :=
  if cfg.channelExists then
    match create_embed action with
    | Except.error _ => [Ev.formatCall]
    | Except.ok e => [Ev.formatCall, Ev.sendCall e]
  else []

/-- The membership test action_type in [createCard, updateCard,
deleteCard, commentCard] of process_trello_event; Python equality of
an arbitrary object with a str holds only for that very string. -/
def isActionable : Option Json → Bool
  | some (Json.str s) =>
      s = "createCard" || s = "updateCard" || s = "deleteCard" || s = "commentCard"
  | _ => false

/-- TrelloWebhookHandler.process_trello_event (lines 77-86): extracts
the action sub-record and its type and sends a message for the four
recognised types; its try/except turns every exception into a log
line, so it always returns normally. -/
def process_trello_event (cfg : Config) (data : Json) : List Ev :=
  match pyGetD data "action" (Json.obj []) with
  | Except.error _ => []
  | Except.ok action =>
    match pyGet action "type" with
    | Except.error _ => []
    | Except.ok action_type =>
      if isActionable action_type then send_discord_message cfg action else []

/-- TrelloWebhookHandler.verify_webhook_signature (lines 56-75): an
unset or empty secret disables verification; a missing or empty
signature header fails it; otherwise the header is compared by
hmac.compare_digest (a constant-time equality, modelled as equality)
against the lowercase hex HMAC-SHA1 of the raw body keyed with the
encoded secret. -/
def verify_webhook_signature (secret : Option String) (req : Request) : Bool :=
  match secret with
  | none => true
  | some s =>
    if s = "" then true
    else
      match req.signatureHeader with
      | none => false
      | some sig =>
        if sig = "" then false
        else sig = hmacSha1Hex (strBytes s) req.body

/-- TrelloWebhookHandler.handle_webhook (lines 41-54): 401 when
verification fails, 500 when anything inside the try raises (the only
remaining raiser is request.json, since process_trello_event catches
internally), otherwise 200 OK. Paired with the response is the trace
of observable pipeline effects. -/
def handle_webhook (cfg : Config) (req : Request) : Response × List Ev :=
  if verify_webhook_signature cfg.secret req then
    match req.jsonResult with
    | none => (⟨500, "Internal Server Error"⟩, [Ev.decodeJson])
    | some data => (⟨200, "OK"⟩, Ev.decodeJson :: process_trello_event cfg data)
  else (⟨401, "Unauthorized"⟩, [])

/-- The EventKind enumeration of the specification. -/
inductive EventKind where
  | cardCreated
  | cardUpdated
  | cardDeleted
  | cardCommented
  | unknown
deriving DecidableEq, Repr

/-- Event classification as realised by the source: the elif chain of
create_embed and the actionable filter of process_trello_event both
dispatch on the action type by these equality tests. -/
def classify (t : Option Json) : EventKind :=
  match t with
  | some (Json.str s) =>
      if s = "createCard" then EventKind.cardCreated
      else if s = "updateCard" then EventKind.cardUpdated
      else if s = "deleteCard" then EventKind.cardDeleted
      else if s = "commentCard" then EventKind.cardCommented
      else EventKind.unknown
  | _ => EventKind.unknown


/-- The type tag of an event record, as the source reads it with
action.get of the key type. -/
def actionTypeOf (action : Json) : Option Json :=
  match action with
  | Json.obj fs => jsonLookup fs "type"
  | _ => none

/-- Is an optional payload value absent or an object? -/
def objOk : Option Json → Bool
  | none => true
  | some (Json.obj _) => true
  | _ => false

/-- Is an optional payload value absent or a string? -/
def strOk : Option Json → Bool
  | none => true
  | some (Json.str _) => true
  | _ => false

/-- Shape discipline of a well-formed-but-possibly-sparse event record,
following the data model of the specification: the record itself and
every sub-record the formatter calls a dict method on (memberCreator,
data, data.card, data.list, data.old) is an object when present, and
every value the formatter calls a str method on (date, data.text) is a
string when present. Field values only ever converted by str(), such
as names, may be arbitrary. -/
def eventWF (action : Json) : Bool :=
  match action with
  | Json.obj fs =>
      objOk (jsonLookup fs "memberCreator") &&
      strOk (jsonLookup fs "date") &&
      objOk (jsonLookup fs "data") &&
      (match jsonLookup fs "data" with
       | some (Json.obj ds) =>
           objOk (jsonLookup ds "card") && objOk (jsonLookup ds "list") &&
           objOk (jsonLookup ds "old") && strOk (jsonLookup ds "text")
       | _ => true)
  | _ => false

/-- Does the event carry a date string that
datetime.fromisoformat(date.replace('Z', '+00:00')) accepts? -/
def dateParses (action : Json) : Bool :=
  match action with
  | Json.obj fs =>
      match jsonLookup fs "date" with
      | some (Json.str d) => (fromisoformat (pyReplace d "Z" "+00:00")).isSome
      | _ => false
  | _ => false

/-- Python truthiness of the TRELLO_WEBHOOK_SECRET configuration value:
false when the variable is unset or set to the empty string. -/
def secretTruthy : Option String → Bool
  | none => false
  | some s => !(s = "")

/-- The sparse event of the specification's robustness property:
action type createCard with an empty data record and no date, card,
list or memberCreator. -/
def sparseCreateEvent : Json :=
  Json.obj [("type", Json.str "createCard"), ("data", Json.obj [])]

/-- The same sparse createCard event with a parseable date added. -/
def sparseCreateEventDated : Json :=
  Json.obj [("type", Json.str "createCard"),
            ("date", Json.str "2023-01-01T00:00:00Z"),
            ("data", Json.obj [])]

/-- A sparse commentCard event with a parseable date and no text. -/
def sparseCommentEventDated : Json :=
  Json.obj [("type", Json.str "commentCard"),
            ("date", Json.str "2023-01-01T00:00:00Z"),
            ("data", Json.obj [])]

/-- An event of an unrecognised action type with a parseable date. -/
def genericEvent : Json :=
  Json.obj [("type", Json.str "boardRenamed"),
            ("date", Json.str "2023-01-01T00:00:00Z"),
            ("memberCreator", Json.obj [("fullName", Json.str "Ana")])]

/-- A commentCard event with the given comment text, card name and
commenter name and a fixed parseable date. -/
def commentEvent (text cardName fullName : String) : Json :=
  Json.obj [("type", Json.str "commentCard"),
            ("date", Json.str "2023-01-01T00:00:00Z"),
            ("memberCreator", Json.obj [("fullName", Json.str fullName)]),
            ("data", Json.obj [("card", Json.obj [("name", Json.str cardName)]),
                               ("text", Json.str text)])]

/-- The timestamp every event dated 2023-01-01T00:00:00Z carries after
parsing. -/
def ts2023 : PyDateTime := ⟨2023, 1, 1, 0, 0, 0, 0, some 0⟩

/-!
Validation of the runtime models on independently known values:
datetime.fromisoformat behaviours checked against CPython, SHA-1 on
the standard abc vector, HMAC-SHA1 on RFC 2202 test case 2.
-/

example : fromisoformat "" = none := by decide

example : fromisoformat "2023-01-01" =
    some ⟨2023, 1, 1, 0, 0, 0, 0, none⟩ := by decide

example : fromisoformat "2023-01-01T00:00:00+00:00" =
    some ⟨2023, 1, 1, 0, 0, 0, 0, some 0⟩ := by decide

example : fromisoformat "2017-07-26T12:12:51.564+00:00" =
    some ⟨2017, 7, 26, 12, 12, 51, 564000, some 0⟩ := by decide

example : fromisoformat "2023-13-01" = none := by decide

example : fromisoformat "2023-02-29" = none := by decide

example : fromisoformat "2024-02-29T23:59:59-05:00" =
    some ⟨2024, 2, 29, 23, 59, 59, 0, some (-(18000000000 : Int))⟩ := by decide

example : bytesToHex (sha1 (strBytes "abc")) =
    "a9993e364706816aba3e25717850c26c9cd0d89d" := by decide

example : hmacSha1Hex (strBytes "Jefe") (strBytes "what do ya want for nothing?") =
    "effcdf6ae5eb2fa2d27416d5f184df9c259a7c79" := by decide

/-!
Reduction lemmas for the embedded Python primitives.
-/

/-- Sequencing a normal value runs the continuation. -/
@[simp] theorem pbind_ok {α β : Type} (a : α) (f : α → Except PyErr β) :
    pbind (Except.ok a) f = f a := rfl

/-- Sequencing an exception propagates it. -/
@[simp] theorem pbind_err {α β : Type} (e : PyErr) (f : α → Except PyErr β) :
    pbind (Except.error e) f = Except.error e := rfl

/-- Dict get on an object succeeds. -/
@[simp] theorem pyGet_obj (fs : List (String × Json)) (k : String) :
    pyGet (Json.obj fs) k = Except.ok (jsonLookup fs k) := rfl

/-- Defaulted dict get on an object succeeds. -/
@[simp] theorem pyGetD_obj (fs : List (String × Json)) (k : String) (d : Json) :
    pyGetD (Json.obj fs) k d = Except.ok ((jsonLookup fs k).getD d) := rfl

/-- The name-with-Unknown-default idiom never raises on an object. -/
@[simp] theorem getNameD_obj (fs : List (String × Json)) (k : String) :
    getNameD (Json.obj fs) k =
      Except.ok (pyStr ((jsonLookup fs k).getD (Json.str "Unknown"))) := rfl

/-- The timestamp expression succeeds exactly on a string date whose
Z-expanded form the parser accepts. -/
theorem parseActionDate_str (d : String) :
    parseActionDate (Json.str d) =
      (match fromisoformat (pyReplace d "Z" "+00:00") with
       | some t => Except.ok t
       | none => Except.error PyErr.valueError) := rfl

/-- A present-or-absent object field, read with an empty-dict default,
is an object. -/
theorem objOk_getD {o : Option Json} (h : objOk o = true) :
    ∃ ms, o.getD (Json.obj []) = Json.obj ms := by
  cases o with
  | none => exact ⟨[], rfl⟩
  | some j => cases j <;> simp [objOk] at h <;> exact ⟨_, rfl⟩

/-- A present-or-absent string field, read with a string default, is a
string. -/
theorem strOk_getD {o : Option Json} {d : String} (h : strOk o = true) :
    ∃ s, o.getD (Json.str d) = Json.str s := by
  cases o with
  | none => exact ⟨d, rfl⟩
  | some j => cases j <;> simp [strOk] at h <;> exact ⟨_, rfl⟩

/-!
Digest-length facts used to show a hex HMAC tag is never the empty
string.
-/

/-- Hex encoding doubles the length. -/
theorem hexChars_length (l : List Nat) : (hexChars l).length = 2 * l.length := by
  induction l with
  | nil => rfl
  | cons b t ih => simp [hexChars, ih]; omega

/-- A serialised chaining state is twenty bytes. -/
theorem sha1StateBytes_length (st : Nat × Nat × Nat × Nat × Nat) :
    (sha1StateBytes st).length = 20 := by
  obtain ⟨a, b, c, d, e⟩ := st; rfl

/-- A SHA-1 digest is twenty bytes. -/
theorem sha1_length (msg : List Nat) : (sha1 msg).length = 20 := by
  unfold sha1; exact sha1StateBytes_length _

/-- An HMAC-SHA1 tag is twenty bytes. -/
theorem hmacSha1_length (key msg : List Nat) : (hmacSha1 key msg).length = 20 := by
  unfold hmacSha1; exact sha1_length _

/-- The hex HMAC-SHA1 tag is never the empty string. -/
theorem hmacSha1Hex_ne_empty (key msg : List Nat) : hmacSha1Hex key msg ≠ "" := by
  intro h
  have hd : hexChars (hmacSha1 key msg) = [] := congrArg String.data h
  have hl := hexChars_length (hmacSha1 key msg)
  rw [hd, hmacSha1_length] at hl
  simp at hl

/-- An exception anywhere in a sequence of steps makes the whole
sequence raise. -/
theorem pbind_error_absorb {α β : Type} (x : Except PyErr α) (f : α → Except PyErr β)
    (h : ∀ a, ∃ err, f a = Except.error err) : ∃ err, pbind x f = Except.error err := by
  cases x with
  | error e => exact ⟨e, rfl⟩
  | ok a => simpa using h a

/-- Every branch of create_embed evaluates the timestamp expression, so
an event record whose date field is absent or an unparsable string
makes create_embed raise, whatever the rest of the record holds. -/
theorem create_embed_error_of_bad_date (fs : List (String × Json))
    (hbad : jsonLookup fs "date" = none ∨
            ∃ d, jsonLookup fs "date" = some (Json.str d) ∧
                 fromisoformat (pyReplace d "Z" "+00:00") = none) :
    ∃ err, create_embed (Json.obj fs) = Except.error err := by
  have hpd : parseActionDate ((jsonLookup fs "date").getD (Json.str "")) =
      Except.error PyErr.valueError := by
    rcases hbad with h | ⟨d, h1, h2⟩
    · rw [h]; rfl
    · rw [h1]; simp [parseActionDate_str, h2]
  simp only [create_embed, pyGet_obj, pbind_ok, pyGetD_obj]
  split
  · refine pbind_error_absorb _ _ (fun card => ?_)
    refine pbind_error_absorb _ _ (fun li => ?_)
    refine pbind_error_absorb _ _ (fun nm => ?_)
    rw [hpd]; exact ⟨_, rfl⟩
  · refine pbind_error_absorb _ _ (fun card => ?_)
    refine pbind_error_absorb _ _ (fun old => ?_)
    refine pbind_error_absorb _ _ (fun nm => ?_)
    rw [hpd]; exact ⟨_, rfl⟩
  · refine pbind_error_absorb _ _ (fun card => ?_)
    refine pbind_error_absorb _ _ (fun nm => ?_)
    rw [hpd]; exact ⟨_, rfl⟩
  · refine pbind_error_absorb _ _ (fun card => ?_)
    refine pbind_error_absorb _ _ (fun textJ => ?_)
    refine pbind_error_absorb _ _ (fun nm => ?_)
    rw [hpd]; exact ⟨_, rfl⟩
  · rw [hpd]; exact ⟨_, rfl⟩

/-- On a well-formed event record carrying a parseable date string,
create_embed raises nothing, whatever the action type: every dict
access defaults, names fall back to Unknown, comment text falls back
to the empty string, and the timestamp parse succeeds. -/
theorem create_embed_ok_of_wf (action : Json)
    (hwf : eventWF action = true) (hdate : dateParses action = true) :
    ∃ e, create_embed action = Except.ok e := by
  cases action with
  | obj fs =>
    simp only [eventWF, Bool.and_eq_true] at hwf
    obtain ⟨⟨⟨hm, hd⟩, hdo⟩, hinner⟩ := hwf
    rcases hld : jsonLookup fs "date" with _ | dj
    · rw [dateParses, hld] at hdate; simp at hdate
    · cases dj with
      | str d =>
        rw [dateParses, hld] at hdate
        obtain ⟨t, hparse⟩ := Option.isSome_iff_exists.mp hdate
        have hpd2 : parseActionDate (Json.str d) = Except.ok t := by
          simp [parseActionDate, hparse]
        obtain ⟨ms, hms⟩ := objOk_getD hm
        have hdata : ∃ ds, (jsonLookup fs "data").getD (Json.obj []) = Json.obj ds ∧
            objOk (jsonLookup ds "card") = true ∧ objOk (jsonLookup ds "list") = true ∧
            objOk (jsonLookup ds "old") = true ∧ strOk (jsonLookup ds "text") = true := by
          rcases hdl : jsonLookup fs "data" with _ | j
          · exact ⟨[], rfl, rfl, rfl, rfl, rfl⟩
          · rw [hdl] at hdo hinner
            cases j <;> simp [objOk] at hdo
            obtain ⟨⟨⟨h1, h2⟩, h3⟩, h4⟩ := by simpa [Bool.and_eq_true] using hinner
            exact ⟨_, rfl, h1, h2, h3, h4⟩
        obtain ⟨ds, hds, hcard, hlist, hold, htext⟩ := hdata
        obtain ⟨cs, hcs⟩ := objOk_getD hcard
        obtain ⟨ls, hls⟩ := objOk_getD hlist
        obtain ⟨os, hos⟩ := objOk_getD hold
        obtain ⟨tx, htx⟩ := @strOk_getD (jsonLookup ds "text") "" htext
        simp only [create_embed, pyGet_obj, pbind_ok, pyGetD_obj]
        split
        · exact ⟨_, by simp [hld, hds, hcs, hls, hms, hpd2]; rfl⟩
        · rcases hn : jsonLookup os "name" with _ | v
          · exact ⟨_, by simp [hld, hds, hcs, hos, hms, hpd2, pyContains, hn]; rfl⟩
          · exact ⟨_, by simp [hld, hds, hcs, hos, hms, hpd2, pyContains, pyIndex, hn]; rfl⟩
        · exact ⟨_, by simp [hld, hds, hcs, hms, hpd2]; rfl⟩
        · exact ⟨_, by simp [hld, hds, hcs, htx, hms, hpd2]; rfl⟩
        · exact ⟨_, by simp [hld, hms, hpd2]; rfl⟩
      | _ => rw [dateParses, hld] at hdate <;> simp at hdate
  | _ => simp [eventWF] at hwf

/-!
Claim theorems.
-/

/-- C2: for every raw body and non-empty configured secret, the
verifier accepts a provided signature exactly when it equals the
lowercase hex HMAC-SHA1 of the body keyed with the secret; any other
signature string is rejected. -/
theorem C2_verify_hmac_iff (body : List Nat) (sig S : String)
    (hS : S ≠ "") (js : Option Json) :
    verify_webhook_signature (some S) ⟨body, some sig, js⟩ = true ↔
      sig = hmacSha1Hex (strBytes S) body := by
  simp only [verify_webhook_signature, hS, if_false]
  by_cases hsig : sig = ""
  · subst hsig
    simp only [if_pos rfl]
    constructor
    · intro h; cases h
    · intro h; exact absurd h.symm (hmacSha1Hex_ne_empty _ _)
  · simp [hsig]

/-- Witness for C2 at RFC 2202 test case 2: the verifier accepts the
published HMAC-SHA1 tag of that body under that key. -/
theorem C2_verify_hmac_iff_witness :
    verify_webhook_signature (some "Jefe")
      ⟨strBytes "what do ya want for nothing?",
       some "effcdf6ae5eb2fa2d27416d5f184df9c259a7c79", none⟩ = true :=
  (C2_verify_hmac_iff (strBytes "what do ya want for nothing?")
      "effcdf6ae5eb2fa2d27416d5f184df9c259a7c79" "Jefe" (by decide) none).mpr
    (by decide)

/-- C3: with no secret configured (unset, or empty and hence falsy)
verification accepts every request whatever its body and signature
header; with a non-empty secret configured and no signature header it
rejects every request. -/
theorem C3_bypass_and_missing_header :
    (∀ secret : Option String, secretTruthy secret = false →
       ∀ req : Request, verify_webhook_signature secret req = true) ∧
    (∀ S : String, S ≠ "" → ∀ (body : List Nat) (js : Option Json),
       verify_webhook_signature (some S) ⟨body, none, js⟩ = false) := by
  constructor
  · intro secret h req
    cases secret with
    | none => rfl
    | some s =>
      have h2 : s = "" := by simpa [secretTruthy] using h
      subst h2
      rfl
  · intro S hS body js
    simp [verify_webhook_signature, hS]

/-- Witness for C3: an empty-string secret admits an arbitrary
signature, and a configured secret with a missing header rejects. -/
theorem C3_bypass_and_missing_header_witness :
    verify_webhook_signature (some "") ⟨[1, 2], some "zzz", none⟩ = true ∧
    verify_webhook_signature (some "k") ⟨[1, 2], none, none⟩ = false :=
  ⟨C3_bypass_and_missing_header.1 (some "") (by decide) _,
   C3_bypass_and_missing_header.2 "k" (by decide) [1, 2] none⟩

/-- C4: a request failing signature verification gets the 401
Unauthorized response and produces an empty effect trace: no JSON
decode, no create_embed call, no channel send. -/
theorem C4_unauthorized_short_circuit (cfg : Config) (req : Request)
    (h : verify_webhook_signature cfg.secret req = false) :
    handle_webhook cfg req = (⟨401, "Unauthorized"⟩, []) := by
  simp [handle_webhook, h]

/-- Witness for C4: a configured secret and a missing header yield the
401 response with an empty trace. -/
theorem C4_unauthorized_short_circuit_witness :
    handle_webhook ⟨some "k", true, false⟩ ⟨[], none, some Json.null⟩ =
      (⟨401, "Unauthorized"⟩, []) :=
  C4_unauthorized_short_circuit ⟨some "k", true, false⟩ ⟨[], none, some Json.null⟩
    (by decide)

/-- C5: a request passing verification whose body is not parseable
JSON gets the 500 response, and the trace holds only the failed decode:
the chat-channel collaborator is never invoked. -/
theorem C5_malformed_json_500 (cfg : Config) (req : Request)
    (h1 : verify_webhook_signature cfg.secret req = true)
    (h2 : req.jsonResult = none) :
    handle_webhook cfg req = (⟨500, "Internal Server Error"⟩, [Ev.decodeJson]) ∧
    ∀ e, Ev.sendCall e ∉ (handle_webhook cfg req).2 := by
  constructor
  · simp [handle_webhook, h1, h2]
  · intro e
    simp [handle_webhook, h1, h2]

/-- Witness for C5: no secret, unparsable body. -/
theorem C5_malformed_json_500_witness :
    handle_webhook ⟨none, true, false⟩ ⟨[], none, none⟩ =
        (⟨500, "Internal Server Error"⟩, [Ev.decodeJson]) ∧
    ∀ e, Ev.sendCall e ∉ (handle_webhook ⟨none, true, false⟩ ⟨[], none, none⟩).2 :=
  C5_malformed_json_500 ⟨none, true, false⟩ ⟨[], none, none⟩ (by decide) rfl

/-- C9: once a request passes verification and its body decodes, the
response is 200 OK for every delivery outcome: whether the channel is
missing and whether channel.send fails have no bearing on it. -/
theorem C9_always_200 (secret : Option String) (req : Request) (data : Json)
    (h1 : verify_webhook_signature secret req = true)
    (h2 : req.jsonResult = some data) :
    ∀ channelExists sendFails : Bool,
      (handle_webhook ⟨secret, channelExists, sendFails⟩ req).1 = ⟨200, "OK"⟩ := by
  intro ch sf
  simp [handle_webhook, h1, h2]

/-- Witness for C9: an actionable event is accepted with 200 even with
the channel missing and sending broken. -/
theorem C9_always_200_witness :
    (handle_webhook ⟨none, false, true⟩ ⟨[], none, some Json.null⟩).1 =
      ⟨200, "OK"⟩ :=
  C9_always_200 none ⟨[], none, some Json.null⟩ Json.null (by decide) rfl false true

/-- C6: classification is total on action types: each of the four
recognised strings maps to its kind, every other value (any other
string, any non-string, or absence) maps to unknown; and the endpoint
attempts delivery through send_discord_message exactly for the
non-unknown kinds, producing no effect otherwise. -/
theorem C6_classification_total :
    classify (some (Json.str "createCard")) = EventKind.cardCreated ∧
    classify (some (Json.str "updateCard")) = EventKind.cardUpdated ∧
    classify (some (Json.str "deleteCard")) = EventKind.cardDeleted ∧
    classify (some (Json.str "commentCard")) = EventKind.cardCommented ∧
    (∀ t : Option Json,
       (∀ s : String, t = some (Json.str s) →
          s ≠ "createCard" ∧ s ≠ "updateCard" ∧ s ≠ "deleteCard" ∧ s ≠ "commentCard") →
       classify t = EventKind.unknown) ∧
    (∀ (cfg : Config) (data action : Json) (ty : Option Json),
       pyGetD data "action" (Json.obj []) = Except.ok action →
       pyGet action "type" = Except.ok ty →
       process_trello_event cfg data =
         (if classify ty ≠ EventKind.unknown
          then send_discord_message cfg action else [])) := by
  have hiff : ∀ ty : Option Json,
      isActionable ty = true ↔ classify ty ≠ EventKind.unknown := by
    intro ty
    cases ty with
    | none => simp [isActionable, classify]
    | some j =>
      cases j with
      | str s =>
        by_cases e1 : s = "createCard"
        · simp [isActionable, classify, e1]
        · by_cases e2 : s = "updateCard"
          · simp [isActionable, classify, e1, e2]
          · by_cases e3 : s = "deleteCard"
            · simp [isActionable, classify, e1, e2, e3]
            · by_cases e4 : s = "commentCard"
              · simp [isActionable, classify, e1, e2, e3, e4]
              · simp [isActionable, classify, e1, e2, e3, e4]
      | num n => simp [isActionable, classify]
      | bool b => simp [isActionable, classify]
      | null => simp [isActionable, classify]
      | arr xs => simp [isActionable, classify]
      | obj fs => simp [isActionable, classify]
  refine ⟨rfl, rfl, rfl, rfl, ?_, ?_⟩
  · intro t h
    cases t with
    | none => rfl
    | some j =>
      cases j with
      | str s =>
        obtain ⟨h1, h2, h3, h4⟩ := h s rfl
        simp [classify, h1, h2, h3, h4]
      | num n => rfl
      | bool b => rfl
      | null => rfl
      | arr xs => rfl
      | obj fs => rfl
  · intro cfg data action ty h1 h2
    by_cases hb : isActionable ty = true
    · simp [process_trello_event, h1, h2, hb, (hiff ty).mp hb]
    · have hu : classify ty = EventKind.unknown := by
        by_contra hne
        exact hb ((hiff ty).mpr hne)
      simp only [Bool.not_eq_true] at hb
      simp [process_trello_event, h1, h2, hb, hu]

/-- Witness for C6: a garbage action type classifies as unknown and its
event is processed without any delivery. -/
theorem C6_classification_total_witness :
    classify (some (Json.str "boardRenamed")) = EventKind.unknown ∧
    process_trello_event ⟨none, true, false⟩
        (Json.obj [("action", Json.obj [("type", Json.str "boardRenamed")])]) =
      (if classify (some (Json.str "boardRenamed")) ≠ EventKind.unknown
       then send_discord_message ⟨none, true, false⟩
              (Json.obj [("type", Json.str "boardRenamed")])
       else []) :=
  ⟨C6_classification_total.2.2.2.2.1 (some (Json.str "boardRenamed"))
      (by
        intro s hs
        injection hs with h
        injection h with h2
        subst h2
        decide),
   C6_classification_total.2.2.2.2.2 ⟨none, true, false⟩
      (Json.obj [("action", Json.obj [("type", Json.str "boardRenamed")])])
      (Json.obj [("type", Json.str "boardRenamed")])
      (some (Json.str "boardRenamed")) rfl rfl⟩

/-- C7: on a commentCard event the formatted Comment field carries the
comment text unchanged when it has at most 1000 code points, and its
first 1000 code points followed by a three-character ellipsis when
longer; at length 1500 the field value has length exactly 1003. -/
theorem C7_comment_truncation (text cardName fullName : String) :
    ∃ e, create_embed (commentEvent text cardName fullName) = Except.ok e ∧
      e.fields.head? = some ⟨"Comment", truncateComment text, false⟩ ∧
      (pyLen text ≤ 1000 → e.fields.head? = some ⟨"Comment", text, false⟩) ∧
      (1000 < pyLen text →
        e.fields.head? = some ⟨"Comment", pyTake text 1000 ++ "...", false⟩) ∧
      (pyLen text = 1500 →
        ∃ v, e.fields.head? = some ⟨"Comment", v, false⟩ ∧ pyLen v = 1003) := by
  refine ⟨⟨"💬 New Comment", "**" ++ cardName ++ "**", 0x0099ff, ts2023,
      [⟨"Comment", truncateComment text, false⟩,
       ⟨"Comment by", fullName, true⟩]⟩, rfl, rfl, ?_, ?_, ?_⟩
  · intro h
    have ht : truncateComment text = text := by
      rw [truncateComment, if_neg (by omega)]
    rw [ht]
    rfl
  · intro h
    have ht : truncateComment text = pyTake text 1000 ++ "..." := by
      rw [truncateComment, if_pos h]
    rw [ht]
    rfl
  · intro h
    refine ⟨truncateComment text, rfl, ?_⟩
    have hv : truncateComment text = pyTake text 1000 ++ "..." := by
      rw [truncateComment, if_pos (by omega)]
    rw [hv]
    have hdata : (pyTake text 1000 ++ "...").data =
        text.data.take 1000 ++ "...".data := rfl
    rw [pyLen, hdata]
    rw [List.length_append, List.length_take]
    rw [pyLen] at h
    rw [h]
    rfl

/-- Witness for C7 at a 1500-character comment. -/
theorem C7_comment_truncation_witness :
    ∃ e, create_embed
        (commentEvent (String.mk (List.replicate 1500 'a')) "Card" "Ana") =
          Except.ok e ∧
      e.fields.head? = some ⟨"Comment",
        truncateComment (String.mk (List.replicate 1500 'a')), false⟩ ∧
      (pyLen (String.mk (List.replicate 1500 'a')) ≤ 1000 →
        e.fields.head? = some ⟨"Comment", String.mk (List.replicate 1500 'a'), false⟩) ∧
      (1000 < pyLen (String.mk (List.replicate 1500 'a')) →
        e.fields.head? = some ⟨"Comment",
          pyTake (String.mk (List.replicate 1500 'a')) 1000 ++ "...", false⟩) ∧
      (pyLen (String.mk (List.replicate 1500 'a')) = 1500 →
        ∃ v, e.fields.head? = some ⟨"Comment", v, false⟩ ∧ pyLen v = 1003) :=
  C7_comment_truncation (String.mk (List.replicate 1500 'a')) "Card" "Ana"

/-- C1 counterexample: the sparse event of the claim, action type
createCard with empty data and no date, does not yield a message with
Unknown placeholders; create_embed raises ValueError, because every
branch parses the timestamp and the absent date defaults to the empty
string, which datetime.fromisoformat rejects. -/
theorem C1_counterexample :
    create_embed sparseCreateEvent = Except.error PyErr.valueError := by rfl

/-- C1 (amended): on every well-formed event record that carries a
parseable date string, create_embed raises nothing — whatever the
action type — and substitutes the documented defaults for absent
fields; in particular the claim's sparse createCard event, once given
a parseable date, yields Unknown for the card, list and creator names,
and the same sparse commentCard event yields an empty comment text. -/
theorem C1_amended_formatter_total :
    (∀ action : Json, eventWF action = true → dateParses action = true →
       ∃ e, create_embed action = Except.ok e) ∧
    create_embed sparseCreateEventDated = Except.ok
      ⟨"🆕 New Card Created", "**Unknown**", 0x00ff00, ts2023,
       [⟨"List", "Unknown", true⟩, ⟨"Creator", "Unknown", true⟩]⟩ ∧
    create_embed sparseCommentEventDated = Except.ok
      ⟨"💬 New Comment", "**Unknown**", 0x0099ff, ts2023,
       [⟨"Comment", "", false⟩, ⟨"Comment by", "Unknown", true⟩]⟩ :=
  ⟨fun action h1 h2 => create_embed_ok_of_wf action h1 h2, by rfl, by rfl⟩

/-- Witness for C1 (amended) at the dated sparse createCard event. -/
theorem C1_amended_formatter_total_witness :
    ∃ e, create_embed sparseCreateEventDated = Except.ok e :=
  C1_amended_formatter_total.1 sparseCreateEventDated (by decide) (by decide)

/-- C8 counterexample: a concrete event of unknown kind formats with
title "🔄 Trello Update", not "Generic Update" as claimed. -/
theorem C8_counterexample :
    ∃ e, create_embed genericEvent = Except.ok e ∧ e.title ≠ "Generic Update" :=
  ⟨⟨"🔄 Trello Update", "Action: boardRenamed", 0x666666, ts2023,
    [⟨"User", "Ana", true⟩]⟩, by rfl, by decide⟩

/-- The else branch of create_embed: an event whose type classifies as
unknown, with a parseable date and an object-or-absent memberCreator,
formats to the generic Trello Update message. -/
theorem create_embed_unknown (fs : List (String × Json)) (ty : Option Json)
    (d : String) (t : PyDateTime) (ms : List (String × Json))
    (hty : jsonLookup fs "type" = ty)
    (hnot : classify ty = EventKind.unknown)
    (hld : jsonLookup fs "date" = some (Json.str d))
    (hparse : fromisoformat (pyReplace d "Z" "+00:00") = some t)
    (hms : (jsonLookup fs "memberCreator").getD (Json.obj []) = Json.obj ms) :
    create_embed (Json.obj fs) = Except.ok
      ⟨"🔄 Trello Update", "Action: " ++ pyStrOpt ty, 0x666666, t,
       [⟨"User", pyStr ((jsonLookup ms "fullName").getD (Json.str "Unknown")),
         true⟩]⟩ := by
  have hpd2 : parseActionDate (Json.str d) = Except.ok t := by
    simp [parseActionDate, hparse]
  cases ty with
  | none => simp [create_embed, hty, hld, hms, hpd2, pyStrOpt]
  | some j =>
    cases j with
    | str s =>
      simp only [classify] at hnot
      split_ifs at hnot with h1 h2 h3 h4
      simp only [create_embed, pyGet_obj, pbind_ok, pyGetD_obj, hty]
      split
      · rename_i heq; exact absurd heq (by simp [h1])
      · rename_i heq; exact absurd heq (by simp [h2])
      · rename_i heq; exact absurd heq (by simp [h3])
      · rename_i heq; exact absurd heq (by simp [h4])
      · simp [hld, hms, hpd2, pyStrOpt]
    | num n => simp [create_embed, hty, hld, hms, hpd2, pyStrOpt]
    | bool b => simp [create_embed, hty, hld, hms, hpd2, pyStrOpt]
    | null => simp [create_embed, hty, hld, hms, hpd2, pyStrOpt]
    | arr xs => simp [create_embed, hty, hld, hms, hpd2, pyStrOpt]
    | obj gs => simp [create_embed, hty, hld, hms, hpd2, pyStrOpt]

/-- C8 (amended): every well-formed event of unknown kind carrying a
parseable date string formats to a message titled "🔄 Trello Update"
— not "Generic Update" — whose description is the string Action:
followed by the str() of the raw action-type value, with the gray
color 0x666666 and a single inline User field carrying the creator's
name. -/
theorem C8_amended_generic_update (action : Json)
    (hwf : eventWF action = true) (hdate : dateParses action = true)
    (hunk : classify (actionTypeOf action) = EventKind.unknown) :
    ∃ e, create_embed action = Except.ok e ∧
      e.title = "🔄 Trello Update" ∧
      e.description = "Action: " ++ pyStrOpt (actionTypeOf action) ∧
      e.color = 0x666666 ∧
      (∃ u, e.fields = [⟨"User", u, true⟩]) ∧
      (∀ fs ms nm, action = Json.obj fs →
         jsonLookup fs "memberCreator" = some (Json.obj ms) →
         jsonLookup ms "fullName" = some (Json.str nm) →
         e.fields = [⟨"User", nm, true⟩]) := by
  cases action with
  | obj fs =>
    simp only [eventWF, Bool.and_eq_true] at hwf
    obtain ⟨⟨⟨hm, hd⟩, hdo⟩, hinner⟩ := hwf
    rcases hld : jsonLookup fs "date" with _ | dj
    · rw [dateParses, hld] at hdate; simp at hdate
    · cases dj with
      | str d =>
        rw [dateParses, hld] at hdate
        obtain ⟨t, hparse⟩ := Option.isSome_iff_exists.mp hdate
        obtain ⟨ms, hms⟩ := objOk_getD hm
        have htyeq : actionTypeOf (Json.obj fs) = jsonLookup fs "type" := rfl
        rw [htyeq] at hunk
        have hred := create_embed_unknown fs (jsonLookup fs "type") d t ms rfl
          hunk hld hparse hms
        refine ⟨_, hred, rfl, rfl, rfl, ⟨_, rfl⟩, ?_⟩
        intro fs2 ms2 nm ha hm2 hn2
        injection ha with hfs
        subst hfs
        rw [hm2] at hms
        simp only [Option.getD] at hms
        injection hms with hmseq
        subst hmseq
        rw [hn2]
        rfl
      | _ => rw [dateParses, hld] at hdate <;> simp at hdate
  | _ => simp [eventWF] at hwf

/-- Witness for C8 (amended) at a concrete unknown-kind event. -/
theorem C8_amended_generic_update_witness :
    ∃ e, create_embed genericEvent = Except.ok e ∧
      e.title = "🔄 Trello Update" ∧
      e.description = "Action: " ++ pyStrOpt (actionTypeOf genericEvent) ∧
      e.color = 0x666666 ∧
      (∃ u, e.fields = [⟨"User", u, true⟩]) ∧
      (∀ fs ms nm, genericEvent = Json.obj fs →
         jsonLookup fs "memberCreator" = some (Json.obj ms) →
         jsonLookup ms "fullName" = some (Json.str nm) →
         e.fields = [⟨"User", nm, true⟩]) :=
  C8_amended_generic_update genericEvent (by decide) (by decide) (by decide)

/-- C10: a verified, well-decoded request whose action has an
actionable type but a date that is absent or an unparsable string
still gets 200 OK and delivers nothing: create_embed raises (the
ValueError of the timestamp parse, or an earlier access error on a
malformed record), send_discord_message catches it and returns
normally having sent nothing, and the endpoint trace holds no
channel.send call. -/
theorem C10_bad_date_caught (secret : Option String) (req : Request)
    (data : Json) (fs : List (String × Json)) (t : String)
    (h1 : verify_webhook_signature secret req = true)
    (h2 : req.jsonResult = some data)
    (h3 : pyGetD data "action" (Json.obj []) = Except.ok (Json.obj fs))
    (h4 : jsonLookup fs "type" = some (Json.str t))
    (h5 : isActionable (some (Json.str t)) = true)
    (h6 : jsonLookup fs "date" = none ∨
          ∃ d, jsonLookup fs "date" = some (Json.str d) ∧
               fromisoformat (pyReplace d "Z" "+00:00") = none) :
    (∃ err, create_embed (Json.obj fs) = Except.error err) ∧
    (∀ channelExists sendFails : Bool,
       send_discord_message ⟨secret, channelExists, sendFails⟩ (Json.obj fs) =
         (if channelExists then [Ev.formatCall] else []) ∧
       (handle_webhook ⟨secret, channelExists, sendFails⟩ req).1 = ⟨200, "OK"⟩ ∧
       ∀ e, Ev.sendCall e ∉ (handle_webhook ⟨secret, channelExists, sendFails⟩ req).2) := by
  obtain ⟨err, herr⟩ := create_embed_error_of_bad_date fs h6
  refine ⟨⟨err, herr⟩, ?_⟩
  intro ch sf
  refine ⟨?_, ?_, ?_⟩
  · cases ch <;> simp [send_discord_message, herr]
  · simp [handle_webhook, h1, h2]
  · intro e
    simp only [handle_webhook, h1, if_true, h2]
    simp only [process_trello_event, h3, pyGet_obj, h4, h5, if_true]
    cases ch <;> simp [send_discord_message, herr]

/-- Witness for C10: an updateCard event with no date at all is
accepted with 200 and nothing is sent. -/
theorem C10_bad_date_caught_witness :
    (∃ err, create_embed (Json.obj [("type", Json.str "updateCard")]) =
       Except.error err) ∧
    (∀ channelExists sendFails : Bool,
       send_discord_message ⟨none, channelExists, sendFails⟩
           (Json.obj [("type", Json.str "updateCard")]) =
         (if channelExists then [Ev.formatCall] else []) ∧
       (handle_webhook ⟨none, channelExists, sendFails⟩
           ⟨[], none, some (Json.obj [("action",
              Json.obj [("type", Json.str "updateCard")])])⟩).1 = ⟨200, "OK"⟩ ∧
       ∀ e, Ev.sendCall e ∉ (handle_webhook ⟨none, channelExists, sendFails⟩
           ⟨[], none, some (Json.obj [("action",
              Json.obj [("type", Json.str "updateCard")])])⟩).2) :=
  C10_bad_date_caught none
    ⟨[], none, some (Json.obj [("action", Json.obj [("type", Json.str "updateCard")])])⟩
    (Json.obj [("action", Json.obj [("type", Json.str "updateCard")])])
    [("type", Json.str "updateCard")] "updateCard"
    (by decide) rfl rfl rfl (by decide) (Or.inl rfl)
